import Mathlib

/-!
Shallow embedding of `src/app.py`, a Telegram bot that checks Georgian
traffic fines for a vehicle registration number through SOCKS proxies.

Network effects are modelled by oracles: each outgoing HTTP request is a
field of a `CheckWorld` record giving the outcome the network would have
produced (`Except` error = the Python exception raised by `requests`).
Python strings are Lean `String`s; `str.split`, `in`, `str.strip` and
`str.upper` are modelled character-exactly on `List Char` below.
-/

deriving instance DecidableEq for Except

namespace PenaltyCheck

/-- Model of Python `str.split(sep)` (nonempty separator) on character
lists, with explicit fuel for structural recursion; the fuel is set to the
length of the string, which is always sufficient. -/
def splitChAux (sep : List Char) : Nat → List Char → List (List Char)
  | _, [] => [[]]
  | 0, s => [s]
  | fuel + 1, c :: s =>
    if sep ≠ [] ∧ sep.isPrefixOf (c :: s) then
      [] :: splitChAux sep fuel (List.drop sep.length (c :: s))
    else
      match splitChAux sep fuel s with
      | [] => [[c]]
      | t :: ts => (c :: t) :: ts

/-- Model of Python `str.split(sep)` for a nonempty separator `sep`. -/
def pySplit (sep s : String) : List String :=
  (splitChAux sep.toList s.toList.length s.toList).map String.mk

/-- Model of Python `sub in s` on character lists: some suffix of the
second list starts with `sub`. -/
def listContainsSub (sub : List Char) : List Char → Bool
  | [] => sub.isEmpty
  | c :: s => sub.isPrefixOf (c :: s) || listContainsSub sub s

/-- Model of Python `sub in s` for strings. -/
def containsSub (sub s : String) : Bool :=
  listContainsSub sub.toList s.toList

/-- Characters removed by Python `str.strip()` (the ASCII whitespace set:
space, tab, newline, carriage return, vertical tab, form feed). -/
def isPySpace (c : Char) : Bool :=
  c.toNat = 32 || c.toNat = 9 || c.toNat = 10 || c.toNat = 13 ||
    c.toNat = 11 || c.toNat = 12

/-- Model of Python `str.strip()` on character lists: drop leading and
trailing whitespace. -/
def pyStripCh (s : List Char) : List Char :=
  ((s.dropWhile isPySpace).reverse.dropWhile isPySpace).reverse

/-- Vehicle-number normalization from `check_fines` line 63:
`update.message.text.strip().upper()`.  Python `str.upper()` is modelled
by `Char.toUpper` (basic latin letters, which is what plates contain). -/
def normalize_vehicle (s : String) : String :=
  String.mk (List.map Char.toUpper (pyStripCh s.toList))

/-- Result of one HTTP request as seen by the Python code. -/
structure HttpResponse where
  status_code : Nat
  text : String
deriving DecidableEq

/-- One entry of the proxy listing JSON (`data` array element); only the
`ip` and `port` fields are read by the code. -/
structure ProxyEntry where
  ip : String
  port : String
deriving DecidableEq

/-- Outcome of the proxy-listing request in `get_proxy_list`: either some
exception was raised (transport failure, non-2xx status via
`raise_for_status`, JSON parse failure, missing key) or a parsed listing
was obtained. -/
inductive FetchOutcome where
  | failure (detail : String)
  | success (entries : List ProxyEntry)
deriving DecidableEq

/-- Proxies travel through the code as `(ip, port)` pairs. -/
abbrev ProxyAddr := String × String

/-- One fine record of the search JSON; the three fields read by the code,
kept as their interpolated string renderings. -/
structure FineRecord where
  violationDate : String
  protocolAmount : String
  lastDate : String
deriving DecidableEq

/-- The `data` object of a successful search response. -/
structure SearchData where
  count : Int
  results : List FineRecord
deriving DecidableEq

/-- Parsed JSON of the search response: the fields accessed by
`check_fines`.  `data` is optional (a missing key raises `KeyError`);
`message` is read with `.get`, hence optional with a default. -/
structure SearchResult where
  success : Bool
  data : Option SearchData
  message : Option String
deriving DecidableEq

/-- The Python exceptions that can escape the `try` block of
`check_fines`: `requests.RequestException` instances from network
failures and `raise_for_status`; the `requests.exceptions.JSONDecodeError`
raised by `Response.json()` on a malformed body, which since requests
2.27 subclasses both `RequestException` and `json.JSONDecodeError`; and
the exceptions only the final `except Exception` catches (`IndexError`
from the token split, `KeyError` from a missing JSON key). -/
inductive PyExc where
  | requestException (detail : String)
  | requestsJSONDecodeError (detail : String)
  | indexError
  | keyError (key : String)
deriving DecidableEq

/-- Class test `isinstance(e, requests.RequestException)` for the
exceptions above: the exception raised by `Response.json()` is a
`RequestException` subclass (requests 2.27 and later declare
`JSONDecodeError(InvalidJSONError, CompatJSONDecodeError)` with
`InvalidJSONError(RequestException)`). -/
def PyExc.isRequestException : PyExc → Bool
  | .requestException _ => true
  | .requestsJSONDecodeError _ => true
  | .indexError => false
  | .keyError _ => false

/-- Class test `isinstance(e, json.JSONDecodeError)` for the exceptions
above. -/
def PyExc.isJsonDecodeError : PyExc → Bool
  | .requestsJSONDecodeError _ => true
  | .requestException _ => false
  | .indexError => false
  | .keyError _ => false

/-- Rendering `str(e)` as interpolated into the reply texts.  CPython
renders the out-of-range `IndexError` as `list index out of range` and
`KeyError(k)` as `\x27k\x27`. -/
def PyExc.str : PyExc → String
  | .requestException detail => detail
  | .requestsJSONDecodeError detail => detail
  | .indexError => "list index out of range"
  | .keyError key => "\x27" ++ key ++ "\x27"

/-- The form body posted to the search endpoint. -/
structure FormData where
  firstResult : String
  protocolAuto : String
  csrf_token : String
deriving DecidableEq

/-- Observable outcome of one `check_fines` invocation: the reply text,
whether the landing-page GET was issued, the form posted to the search
endpoint (if the POST was issued), and the proxy installed by
`set_socks_proxy` (if any). -/
structure HandlerOut where
  reply : String
  landingRequested : Bool
  posted : Option FormData
  proxyConfigured : Option ProxyAddr
deriving DecidableEq

/-- Oracle for all network interactions of one `check_fines` run. -/
structure CheckWorld where
  text : String
  fetch : FetchOutcome
  probeResp : ProxyAddr → Except String HttpResponse
  landing : Except String HttpResponse
  search : FormData → Except String HttpResponse
  parse_json : String → Except String SearchResult

/-- Constant from `app.py` line 21. -/
def PROXY_TIMEOUT : Nat := 5

/-- Constant from `app.py` line 22. -/
def MAX_RETRIES : Nat := 5

/-- Embedding of `get_proxy_list` (lines 24-33): on any exception the
function logs and returns `[]`; otherwise it maps the listing entries to
`(ip, port)` pairs in listed order. -/
def get_proxy_list : FetchOutcome → List ProxyAddr
  | .failure _ => []
  | .success entries => entries.map (fun proxy => (proxy.ip, proxy.port))

/-- Embedding of `test_proxy` (lines 39-46): given the outcome of the
probe GET (any raised exception folded into `.error`), return whether the
status code equals 200; every exception yields `false`. -/
def test_proxy (outcome : Except String HttpResponse) : Bool :=
  match outcome with
  | .ok response => response.status_code == 200
  | .error _ => false

/-- Inner loop of `get_working_proxy` (lines 51-54): first proxy of the
list accepted by the probe. -/
def find_working_in_list (probe : ProxyAddr → Bool) : List ProxyAddr → Option ProxyAddr
  | [] => none
  | proxy :: rest => if probe proxy then some proxy else find_working_in_list probe rest

/-- Retry loop of `get_working_proxy` (lines 50-56): up to `n` passes over
the same list. -/
def retry_passes (probe : ProxyAddr → Bool) (proxy_list : List ProxyAddr) : Nat → Option ProxyAddr
  | 0 => none
  | n + 1 =>
    match find_working_in_list probe proxy_list with
    | some proxy => some proxy
    | none => retry_passes probe proxy_list n

/-- Embedding of `get_working_proxy` (lines 48-57): fetch the candidate
list once, then run up to `maxRetries` passes over it. -/
def get_working_proxy (fetch : FetchOutcome) (probe : ProxyAddr → Bool) (maxRetries : Nat) : Option ProxyAddr :=
  let proxy_list := get_proxy_list fetch
  retry_passes probe proxy_list maxRetries

/-- The marker searched for in each landing-page line (line 86). -/
def csrf_marker : String := "csrf_token"

/-- The delimiter used by the token split (line 87). -/
def value_marker : String := "value=\""

/-- Token-extraction loop of `check_fines` (lines 84-88) over the list of
lines: on the first line containing `csrf_token`, evaluate
`line.split('value="')[1].split('"')[0]`; the `[1]` raises `IndexError`
when the line has no `value="`.  Returns `ok none` when no line contains
the marker (`csrf_token` stays `None` in the source). -/
def extract_csrf_token_lines (lines : List String) : Except PyExc (Option String) :=
  match lines.find? (fun line => containsSub csrf_marker line) with
  | none => .ok none
  | some line =>
    match pySplit value_marker line with
    | _ :: second :: _ => .ok (some ((pySplit "\"" second).headD ""))
    | _ => .error .indexError

/-- Token extraction from the landing-page body: the source iterates
`response.text.split('\n')` (line 85). -/
def extract_csrf_token (body : String) : Except PyExc (Option String) :=
  extract_csrf_token_lines (pySplit "\n" body)

/-- Reply sent when no working proxy is found (line 68). -/
def noProxyMsg : String := "Sorry, couldn\x27t find a working proxy. Please try again later."

/-- Reply sent when the CSRF token is missing or empty (line 92). -/
def tokenFailMsg : String := "Sorry, couldn\x27t retrieve the necessary information. Please try again later."

/-- Reply built by the `json.JSONDecodeError` handler (line 144); under
requests 2.27 and later this clause is shadowed by the earlier
`requests.RequestException` clause for every `Response.json()` failure
(see `format_exception`). -/
def parseErrorMsg : String := "Sorry, couldn\x27t process the response from the server. The response wasn\x27t in the expected format."

/-- Detail string of the `requests.HTTPError` raised by
`raise_for_status` on a 4xx or 5xx response. -/
def http_status_detail (r : HttpResponse) : String :=
  "HTTP error " ++ toString r.status_code

/-- Ordered dispatch of the `except` clauses of `check_fines` (lines
138-147): Python runs the first clause whose class matches, so the
`requests.RequestException` clause at line 138 is tried before the
`json.JSONDecodeError` clause at line 141 and the catch-all at line 145.
Because the exception raised by `Response.json()` is itself a
`RequestException`, the middle clause is shadowed for every exception
this program can raise. -/
def format_exception (e : PyExc) : String :=
  if e.isRequestException then "Sorry, there was an error checking for fines: " ++ e.str
  else if e.isJsonDecodeError then parseErrorMsg
  else "An unexpected error occurred: " ++ e.str

/-- The three lines appended for one fine record (lines 130-132). -/
def fine_block (fine : FineRecord) : String :=
  "Date: " ++ fine.violationDate ++ "\n" ++
    "Amount: " ++ fine.protocolAmount ++ " GEL\n" ++
    "Due date: " ++ fine.lastDate ++ "\n\n"

/-- Message built for a positive fine count (lines 128-132): header, then
one block per record appended left to right. -/
def format_found (vehicle_number : String) (fines_count : Int) (fines : List FineRecord) : String :=
  fines.foldl (fun message fine => message ++ fine_block fine)
    ("Found " ++ toString fines_count ++ " fine(s) for vehicle " ++ vehicle_number ++ ":\n\n")

/-- Specification-shaped concatenation of fine blocks, one per record in
input order; proved equal to the fold of `format_found`. -/
def joinBlocks (fines : List FineRecord) : String :=
  fines.foldr (fun fine acc => fine_block fine ++ acc) ""

/-- Body of the `try` block of `check_fines` (lines 73-136) after a proxy
has been selected: produces either the reply text or the escaped Python
exception, together with the form posted to the search endpoint when the
POST was issued.  `raise_for_status` raises for status codes in
[400, 600); a `Response.json()` failure escapes as
`requests.exceptions.JSONDecodeError` (requests 2.27 and later). -/
def run_lookup (w : CheckWorld) (vehicle_number : String) : Except PyExc String × Option FormData :=
  match w.landing with
  | .error d => (.error (.requestException d), none)
  | .ok r0 =>
    if 400 ≤ r0.status_code ∧ r0.status_code < 600 then
      (.error (.requestException (http_status_detail r0)), none)
    else
      match extract_csrf_token r0.text with
      | .error e => (.error e, none)
      | .ok none => (.ok tokenFailMsg, none)
      | .ok (some tok) =>
        if tok = "" then (.ok tokenFailMsg, none)
        else
          let form : FormData := ⟨"0", vehicle_number, tok⟩
          match w.search form with
          | .error d => (.error (.requestException d), some form)
          | .ok r1 =>
            if 400 ≤ r1.status_code ∧ r1.status_code < 600 then
              (.error (.requestException (http_status_detail r1)), some form)
            else
              match w.parse_json r1.text with
              | .error d => (.error (.requestsJSONDecodeError d), some form)
              | .ok result =>
                if result.success then
                  match result.data with
                  | none => (.error (.keyError "data"), some form)
                  | some data =>
                    if 0 < data.count then
                      (.ok (format_found vehicle_number data.count data.results), some form)
                    else
                      (.ok ("No fines found for vehicle " ++ vehicle_number ++ "."), some form)
                else
                  (.ok ("The server reported an error: " ++ result.message.getD "Unknown error"), some form)

/-- Embedding of the `check_fines` handler (lines 62-153): normalize the
message text, select a working proxy (replying with `noProxyMsg` and
returning when none is found), install it, run the two-step lookup, and
map any escaped exception to its reply text. -/
def check_fines (w : CheckWorld) : HandlerOut :=
  let vehicle_number := normalize_vehicle w.text
  match get_working_proxy w.fetch (fun proxy => test_proxy (w.probeResp proxy)) MAX_RETRIES with
  | none => ⟨noProxyMsg, false, none, none⟩
  | some proxy =>
    let out := run_lookup w vehicle_number
    let message :=
      match out.1 with
      | .ok m => m
      | .error e => format_exception e
    ⟨message, true, out.2, some proxy⟩

/-- Contiguous-substring relation on character lists: `l` occurs inside
`s`. -/
def isSubChunk (l s : List Char) : Prop := ∃ a b, s = a ++ l ++ b

/-- Property of a character list that its first character, when present,
is not stripped whitespace. -/
def noLeadSpace (x : List Char) : Prop := ∀ c ∈ x.head?, isPySpace c = false

/-! Concrete values used by counterexamples and witnesses. -/

/-- Concrete landing-page line carrying the token field. -/
def csrf_line : String := "<input type=\"hidden\" name=\"csrf_token\" value=\"ABC123\">"

/-- Concrete landing-page body whose second line carries the token. -/
def body_with_token : String := "<html>\n" ++ csrf_line ++ "\n</html>"

/-- Concrete proxy-listing entry. -/
def goodEntry : ProxyEntry := ⟨"93.177.1.1", "4153"⟩

/-- Probe oracle under which every proxy answers 200. -/
def allProbesLive : ProxyAddr → Except String HttpResponse :=
  fun _ => .ok ⟨200, ""⟩

/-- Concrete world whose landing page has no `csrf_token` occurrence. -/
def w4 : CheckWorld :=
  ⟨"ab123cd", .success [goodEntry], allProbesLive,
    .ok ⟨200, "<html><body>portal</body></html>"⟩,
    fun _ => .error "unused", fun _ => .error "unused"⟩

/-- Concrete world whose landing page is the bare line `csrf_token`,
which contains the marker but no `value=` delimiter. -/
def w9 : CheckWorld :=
  ⟨"ab123cd", .success [goodEntry], allProbesLive,
    .ok ⟨200, "csrf_token"⟩,
    fun _ => .error "unused", fun _ => .error "unused"⟩

/-- Concrete world whose search response body fails JSON parsing. -/
def w5 : CheckWorld :=
  ⟨" ab123cd ", .success [goodEntry], allProbesLive,
    .ok ⟨200, body_with_token⟩,
    fun _ => .ok ⟨200, "<html>error page</html>"⟩,
    fun _ => .error "Expecting value: line 1 column 1 (char 0)"⟩

/-- Concrete fine records for the formatter witness. -/
def fine1 : FineRecord := ⟨"2024-01-01", "50.00", "2024-02-01"⟩

/-- Second concrete fine record. -/
def fine2 : FineRecord := ⟨"2024-03-05", "150.00", "2024-04-05"⟩

/-- Concrete parsed search result with two fines. -/
def result6 : SearchResult := ⟨true, some ⟨2, [fine1, fine2]⟩, none⟩

/-- Concrete world whose search succeeds with two fines. -/
def w6 : CheckWorld :=
  ⟨" ab123cd ", .success [goodEntry], allProbesLive,
    .ok ⟨200, body_with_token⟩,
    fun _ => .ok ⟨200, "searchjson"⟩,
    fun _ => .ok result6⟩

/-- Concrete world in which the proxy-listing fetch fails, so no proxy is
ever found. -/
def wNone : CheckWorld :=
  ⟨"ab123cd", .failure "connection reset", allProbesLive,
    .error "unused", fun _ => .error "unused", fun _ => .error "unused"⟩

/-! Helper lemmas. -/

/-- Inner loop of the selector is the first match of the list. -/
theorem find_working_eq (probe : ProxyAddr → Bool) (l : List ProxyAddr) :
    find_working_in_list probe l = l.find? probe := by
  induction l with
  | nil => rfl
  | cons p rest ih =>
    by_cases h : probe p = true
    · simp [find_working_in_list, h]
    · simp only [Bool.not_eq_true] at h
      simp [find_working_in_list, h, ih]

/-- When no candidate probes live, every pass returns `none`. -/
theorem retry_passes_none (probe : ProxyAddr → Bool) (l : List ProxyAddr)
    (h : l.find? probe = none) : ∀ n, retry_passes probe l n = none := by
  intro n
  induction n with
  | zero => rfl
  | succ m ih => simp [retry_passes, find_working_eq, h, ih]

/-- Boolean prefix test unfolded to an existential. -/
theorem isPrefixOf_iff_ex : ∀ l₁ l₂ : List Char, l₁.isPrefixOf l₂ = true ↔ ∃ t, l₂ = l₁ ++ t := by
  intro l₁
  induction l₁ with
  | nil =>
    intro l₂
    simp only [List.isPrefixOf_nil_left, List.nil_append, true_iff]
    exact ⟨l₂, rfl⟩
  | cons a as ih =>
    intro l₂
    cases l₂ with
    | nil =>
      constructor
      · intro h
        exact absurd h (by simp)
      · rintro ⟨t, ht⟩
        exact absurd ht (by simp)
    | cons b bs =>
      rw [List.isPrefixOf_cons₂]
      constructor
      · intro h
        rw [Bool.and_eq_true] at h
        obtain ⟨h1, h2⟩ := h
        obtain ⟨t, ht⟩ := (ih bs).1 h2
        exact ⟨t, by rw [beq_iff_eq] at h1; simp [h1, ht]⟩
      · rintro ⟨t, ht⟩
        simp only [List.cons_append] at ht
        injection ht with h1 h2
        rw [Bool.and_eq_true, beq_iff_eq]
        exact ⟨h1.symm, (ih bs).2 ⟨t, h2⟩⟩

/-- Occurring inside an occurrence is occurring inside the whole. -/
theorem chunk_trans {m l s : List Char} (h1 : isSubChunk m l) (h2 : isSubChunk l s) :
    isSubChunk m s := by
  obtain ⟨c, d, hl⟩ := h1
  obtain ⟨a, b, hs⟩ := h2
  exact ⟨a ++ c, d ++ b, by rw [hs, hl]; simp [List.append_assoc]⟩

/-- The Python `in` test decides the contiguous-substring relation. -/
theorem contains_iff (sub : List Char) : ∀ s, listContainsSub sub s = true ↔ isSubChunk sub s := by
  intro s
  induction s with
  | nil =>
    simp only [listContainsSub]
    constructor
    · intro h
      have hsub : sub = [] := by simpa using h
      exact ⟨[], [], by simp [hsub]⟩
    · rintro ⟨a, b, h⟩
      have := h.symm
      simp only [List.append_eq_nil] at this
      simp [this.1.2]
    | cons c t ih =>
      simp only [listContainsSub, Bool.or_eq_true, ih, isPrefixOf_iff_ex]
      constructor
      · rintro (⟨x, hx⟩ | ⟨a, b, hab⟩)
        · exact ⟨[], x, by simpa using hx⟩
        · exact ⟨c :: a, b, by simp [hab]⟩
      · rintro ⟨a, b, hab⟩
        cases a with
        | nil => exact Or.inl ⟨b, by simpa using hab⟩
        | cons a0 a2 =>
          right
          simp only [List.cons_append] at hab
          injection hab with h1 h2
          exact ⟨a2, b, h2⟩

/-- Every piece produced by the splitter occurs inside the input, and the
first piece is an initial segment. -/
theorem splitChAux_chunks (sep : List Char) :
    ∀ fuel s, ∃ t ts, splitChAux sep fuel s = t :: ts ∧ (∃ b, s = t ++ b) ∧
      ∀ l ∈ ts, isSubChunk l s := by
  intro fuel
  induction fuel with
  | zero =>
    intro s
    cases s with
    | nil => exact ⟨[], [], rfl, ⟨[], rfl⟩, by simp⟩
    | cons c s2 => exact ⟨c :: s2, [], rfl, ⟨[], by simp⟩, by simp⟩
  | succ n ih =>
    intro s
    cases s with
    | nil => exact ⟨[], [], rfl, ⟨[], rfl⟩, by simp⟩
    | cons c s2 =>
      by_cases h : sep ≠ [] ∧ sep.isPrefixOf (c :: s2)
      · obtain ⟨t2, ts2, heq, ⟨b2, hb2⟩, hts2⟩ := ih (List.drop sep.length (c :: s2))
        have hstep : splitChAux sep (n + 1) (c :: s2) =
            [] :: splitChAux sep n (List.drop sep.length (c :: s2)) := by
          simp only [splitChAux, if_pos h]
        refine ⟨[], t2 :: ts2, ?_, ⟨c :: s2, rfl⟩, ?_⟩
        · rw [hstep, heq]
        · have hdrop : isSubChunk (List.drop sep.length (c :: s2)) (c :: s2) :=
            ⟨List.take sep.length (c :: s2), [], by simp⟩
          intro l hl
          rcases List.mem_cons.1 hl with rfl | hl2
          · exact chunk_trans ⟨[], b2, by simpa using hb2⟩ hdrop
          · exact chunk_trans (hts2 l hl2) hdrop
      · obtain ⟨t2, ts2, heq, ⟨b2, hb2⟩, hts2⟩ := ih s2
        have hstep : splitChAux sep (n + 1) (c :: s2) = (c :: t2) :: ts2 := by
          simp only [splitChAux, if_neg h, heq]
        refine ⟨c :: t2, ts2, hstep, ⟨b2, by simp [hb2]⟩, ?_⟩
        intro l hl
        obtain ⟨a, b, hab⟩ := hts2 l hl
        exact ⟨c :: a, b, by simp [hab]⟩

/-- Membership form of `splitChAux_chunks`. -/
theorem splitChAux_mem_chunk {sep : List Char} {fuel : Nat} {s l : List Char}
    (hl : l ∈ splitChAux sep fuel s) : isSubChunk l s := by
  obtain ⟨t, ts, heq, ⟨b, hb⟩, hts⟩ := splitChAux_chunks sep fuel s
  rw [heq] at hl
  rcases List.mem_cons.1 hl with rfl | h2
  · exact ⟨[], b, by simpa using hb⟩
  · exact hts l h2

/-- A substring absent from the whole body is absent from every line of
its newline split. -/
theorem containsSub_lines (sub body : String) (h : containsSub sub body = false) :
    ∀ line ∈ pySplit "\n" body, containsSub sub line = false := by
  intro line hline
  unfold pySplit at hline
  obtain ⟨l, hl, rfl⟩ := List.mem_map.1 hline
  show listContainsSub sub.toList l = false
  by_contra hc
  rw [Bool.not_eq_false] at hc
  have h1 : isSubChunk sub.toList l := (contains_iff _ _).1 hc
  have h2 : isSubChunk l body.toList := splitChAux_mem_chunk hl
  have h3 : listContainsSub sub.toList body.toList = true :=
    (contains_iff _ _).2 (chunk_trans h1 h2)
  rw [containsSub] at h
  rw [h3] at h
  exact absurd h (by simp)

/-- On a body with no occurrence of the marker, the extraction loop
finishes with the token still unset. -/
theorem extract_none (body : String) (h : containsSub csrf_marker body = false) :
    extract_csrf_token body = .ok none := by
  unfold extract_csrf_token extract_csrf_token_lines
  have hfind : (pySplit "\n" body).find? (fun line => containsSub csrf_marker line) = none :=
    List.find?_eq_none.2 (fun x hx => by simp [containsSub_lines csrf_marker body h x hx])
  rw [hfind]

/-! Claim theorems. -/

/-- C3: when the first line of the landing-page body containing the
`csrf_token` marker is the concrete input field with `value="ABC123"`,
token extraction returns exactly `ABC123`. -/
theorem claim_C3 (body : String) (pre post : List String)
    (hsplit : pySplit "\n" body = pre ++ csrf_line :: post)
    (hpre : ∀ l ∈ pre, containsSub csrf_marker l = false) :
    extract_csrf_token body = .ok (some "ABC123") := by
  unfold extract_csrf_token extract_csrf_token_lines
  rw [hsplit, List.find?_append]
  have h1 : pre.find? (fun line => containsSub csrf_marker line) = none :=
    List.find?_eq_none.2 (fun x hx => by simp [hpre x hx])
  have h2 : (csrf_line :: post).find? (fun line => containsSub csrf_marker line) =
      some csrf_line :=
    List.find?_cons_of_pos _ (by decide)
  rw [h1, h2]
  decide

/-- C3 witness: a concrete three-line body whose second line is the token
field. -/
theorem claim_C3_witness :
    pySplit "\n" body_with_token = ["<html>"] ++ csrf_line :: ["</html>"] ∧
      containsSub csrf_marker "<html>" = false ∧
      extract_csrf_token body_with_token = .ok (some "ABC123") :=
  ⟨by decide, by decide,
    claim_C3 body_with_token ["<html>"] ["</html>"] (by decide) (by decide)⟩

/-- C4 counterexample: on a landing body with no `csrf_token` occurrence
the user-facing reply is the token-failure message of line 92 of the
source, which differs from the fixed ParseError message the claim
names. -/
theorem claim_C4_counterexample :
    containsSub csrf_marker "<html><body>portal</body></html>" = false ∧
      (check_fines w4).reply = tokenFailMsg ∧
      (check_fines w4).reply ≠ parseErrorMsg :=
  ⟨by decide, by decide, by decide⟩

/-- C4 amended: for every landing-page body with no occurrence of
`csrf_token`, the lookup replies with the fixed token-failure message
`Sorry, couldn\x27t retrieve the necessary information. Please try again
later.` (not the ParseError message), and never crashes or propagates an
exception. -/
theorem claim_C4 (w : CheckWorld) (p : ProxyAddr) (r0 : HttpResponse)
    (hsel : get_working_proxy w.fetch (fun q => test_proxy (w.probeResp q)) MAX_RETRIES = some p)
    (hland : w.landing = .ok r0) (h0 : r0.status_code < 400)
    (hmark : containsSub csrf_marker r0.text = false) :
    (check_fines w).reply = tokenFailMsg := by
  have h0x : ¬(400 ≤ r0.status_code ∧ r0.status_code < 600) := by omega
  simp [check_fines, hsel, run_lookup, hland, h0x, extract_none r0.text hmark]

/-- C4 witness: the amended claim applied to the concrete marker-free
world. -/
theorem claim_C4_witness :
    containsSub csrf_marker "<html><body>portal</body></html>" = false ∧
      (check_fines w4).reply = tokenFailMsg :=
  ⟨by decide,
    claim_C4 w4 ("93.177.1.1", "4153") ⟨200, "<html><body>portal</body></html>"⟩
      (by decide) rfl (by decide) (by decide)⟩

/-- C1: for every fetched candidate list and every pass budget of at least
one pass, the selector fetches the list once and its result is the first
candidate of that list (in listed order) for which the probe succeeds,
independent of the pass count; it is `none` exactly when no candidate
succeeds. -/
theorem claim_C1 (fetch : FetchOutcome) (probe : ProxyAddr → Bool) (maxPasses : Nat)
    (h : 1 ≤ maxPasses) :
    get_working_proxy fetch probe maxPasses = (get_proxy_list fetch).find? probe := by
  obtain ⟨m, rfl⟩ : ∃ m, maxPasses = m + 1 := ⟨maxPasses - 1, by omega⟩
  show retry_passes probe (get_proxy_list fetch) (m + 1) = _
  cases hf : (get_proxy_list fetch).find? probe with
  | some p => simp [retry_passes, find_working_eq, hf]
  | none => simp [retry_passes, find_working_eq, hf, retry_passes_none probe _ hf]

/-- C1 witness: with three candidates of which only the third probes live,
five passes return the third candidate. -/
theorem claim_C1_witness :
    1 ≤ 5 ∧
      get_working_proxy
        (.success [⟨"1.1.1.1", "1080"⟩, ⟨"2.2.2.2", "1081"⟩, ⟨"3.3.3.3", "1082"⟩])
        (fun a => a == ("3.3.3.3", "1082")) 5 = some ("3.3.3.3", "1082") :=
  ⟨by decide, by
    rw [claim_C1 _ _ 5 (by decide)]
    decide⟩

/-- C2: probing returns `true` exactly when the GET produced a response
with status 200; every exception outcome yields `false`, and the probe
never propagates an exception (it is a total function into `Bool`). -/
theorem claim_C2 (outcome : Except String HttpResponse) :
    test_proxy outcome = true ↔ ∃ r, outcome = .ok r ∧ r.status_code = 200 := by
  cases outcome with
  | error e => simp [test_proxy]
  | ok r => simp [test_proxy]

/-- C7: the proxy source returns the empty list on every failure outcome
(never raising, being a total function), and on success returns exactly
the `(ip, port)` pairs of the listing in listed order, position by
position. -/
theorem claim_C7 :
    (∀ detail, get_proxy_list (.failure detail) = []) ∧
      (∀ entries, get_proxy_list (.success entries) =
          entries.map (fun e => (e.ip, e.port)) ∧
        (get_proxy_list (.success entries)).length = entries.length ∧
        ∀ i : Nat, (get_proxy_list (.success entries))[i]? =
          entries[i]?.map (fun e => (e.ip, e.port))) := by
  refine ⟨fun _ => rfl, fun entries => ⟨rfl, ?_, ?_⟩⟩
  · simp [get_proxy_list]
  · intro i
    simp [get_proxy_list]

/-- Left fold of the per-fine blocks equals the header followed by the
concatenation of the blocks in input order. -/
theorem foldl_blocks (l : List FineRecord) :
    ∀ i : String, l.foldl (fun message fine => message ++ fine_block fine) i = i ++ joinBlocks l := by
  induction l with
  | nil => intro i; simp [joinBlocks]
  | cons f t ih =>
    intro i
    simp only [List.foldl_cons, joinBlocks, List.foldr_cons] at *
    rw [ih, String.append_assoc]

/-- The transport-error reply differs from the fixed ParseError message
whatever the interpolated detail is (the two fixed parts already differ
at character index 7). -/
theorem transport_ne_parse (detail : String) :
    "Sorry, there was an error checking for fines: " ++ detail ≠ parseErrorMsg := by
  intro h
  have h2 := congrArg (fun s => s.data[7]?) h
  simp only [String.data_append] at h2
  rw [List.getElem?_append_left (by decide)] at h2
  exact absurd h2 (by decide)

/-- C5 (code bug): the claim states the intent documented by the spec and
by the dedicated `json.JSONDecodeError` handler at line 141, but the code
misses it: `Response.json()` (requests 2.27 and later) raises
`requests.exceptions.JSONDecodeError`, which is a `RequestException`, so
the line-138 clause catches it first.  For every search response whose
body is not well-formed JSON the reply is the transport-error message and
never the fixed ParseError message, and the line-141 clause is shadowed
for every exception this program can raise. -/
theorem claim_C5 :
    (∀ (w : CheckWorld) (p : ProxyAddr) (r0 r1 : HttpResponse) (tok detail : String),
      get_working_proxy w.fetch (fun q => test_proxy (w.probeResp q)) MAX_RETRIES = some p →
      w.landing = .ok r0 → r0.status_code < 400 →
      extract_csrf_token r0.text = .ok (some tok) → tok ≠ "" →
      w.search ⟨"0", normalize_vehicle w.text, tok⟩ = .ok r1 → r1.status_code < 400 →
      w.parse_json r1.text = .error detail →
      (check_fines w).reply = "Sorry, there was an error checking for fines: " ++ detail ∧
        (check_fines w).reply ≠ parseErrorMsg) ∧
      (∀ e : PyExc, e.isJsonDecodeError = true →
        e.isRequestException = true ∧
          format_exception e = "Sorry, there was an error checking for fines: " ++ e.str) := by
  constructor
  · intro w p r0 r1 tok detail hsel hland h0 htok hne hsearch h1 hjson
    have h0x : ¬(400 ≤ r0.status_code ∧ r0.status_code < 600) := by omega
    have h1x : ¬(400 ≤ r1.status_code ∧ r1.status_code < 600) := by omega
    have hreply : (check_fines w).reply =
        "Sorry, there was an error checking for fines: " ++ detail := by
      simp [check_fines, hsel, run_lookup, hland, h0x, htok, hne, hsearch, h1x, hjson,
        format_exception, PyExc.isRequestException, PyExc.str]
    exact ⟨hreply, by rw [hreply]; exact transport_ne_parse detail⟩
  · intro e he
    cases e <;>
      simp_all [PyExc.isJsonDecodeError, PyExc.isRequestException, format_exception, PyExc.str]

/-- C5 witness: in the concrete world whose search body is an HTML error
page, the reply carries the JSON decoder detail behind the
transport-error prefix and is not the ParseError message. -/
theorem claim_C5_witness :
    (check_fines w5).reply =
      "Sorry, there was an error checking for fines: Expecting value: line 1 column 1 (char 0)" ∧
      (check_fines w5).reply ≠ parseErrorMsg := by
  have h := claim_C5.1 w5 ("93.177.1.1", "4153") ⟨200, body_with_token⟩
    ⟨200, "<html>error page</html>"⟩ "ABC123" "Expecting value: line 1 column 1 (char 0)"
    (by decide) rfl (by decide) (by decide) (by decide) rfl (by decide) rfl
  refine ⟨?_, h.2⟩
  rw [h.1]
  decide

/-- C6: the reply mapping is deterministic and exact: count 0 yields the
no-fines sentence, count n > 0 yields the header followed by one
date/amount/due-date block per record in input order with the `GEL`
suffix, and a server-reported failure yields the server-error sentence
with the reported message, defaulting to `Unknown error`. -/
theorem claim_C6 (w : CheckWorld) (p : ProxyAddr) (r0 r1 : HttpResponse) (tok : String)
    (result : SearchResult)
    (hsel : get_working_proxy w.fetch (fun q => test_proxy (w.probeResp q)) MAX_RETRIES = some p)
    (hland : w.landing = .ok r0) (h0 : r0.status_code < 400)
    (htok : extract_csrf_token r0.text = .ok (some tok)) (hne : tok ≠ "")
    (hsearch : w.search ⟨"0", normalize_vehicle w.text, tok⟩ = .ok r1)
    (h1 : r1.status_code < 400)
    (hjson : w.parse_json r1.text = .ok result) :
    (∀ d : SearchData, result.success = true → result.data = some d → d.count = 0 →
        (check_fines w).reply = "No fines found for vehicle " ++ normalize_vehicle w.text ++ ".") ∧
      (∀ d : SearchData, result.success = true → result.data = some d → 0 < d.count →
        (check_fines w).reply =
          "Found " ++ toString d.count ++ " fine(s) for vehicle " ++ normalize_vehicle w.text ++
            ":\n\n" ++ joinBlocks d.results) ∧
      (∀ m : String, result.success = false → result.message = some m →
        (check_fines w).reply = "The server reported an error: " ++ m) ∧
      (result.success = false → result.message = none →
        (check_fines w).reply = "The server reported an error: Unknown error") := by
  have h0x : ¬(400 ≤ r0.status_code ∧ r0.status_code < 600) := by omega
  have h1x : ¬(400 ≤ r1.status_code ∧ r1.status_code < 600) := by omega
  refine ⟨?_, ?_, ?_, ?_⟩
  · intro d hs hd hc
    simp [check_fines, hsel, run_lookup, hland, h0x, htok, hne, hsearch, h1x, hjson, hs, hd, hc]
  · intro d hs hd hc
    simp [check_fines, hsel, run_lookup, hland, h0x, htok, hne, hsearch, h1x, hjson, hs, hd, hc,
      format_found, foldl_blocks, String.append_assoc]
  · intro m hs hm
    simp [check_fines, hsel, run_lookup, hland, h0x, htok, hne, hsearch, h1x, hjson, hs, hm]
  · intro hs hm
    simp [check_fines, hsel, run_lookup, hland, h0x, htok, hne, hsearch, h1x, hjson, hs, hm]

/-- C6 witness: a concrete success response with two fine records yields
the exact two-block reply. -/
theorem claim_C6_witness :
    (check_fines w6).reply =
      "Found 2 fine(s) for vehicle AB123CD:\n\nDate: 2024-01-01\nAmount: 50.00 GEL\nDue date: 2024-02-01\n\nDate: 2024-03-05\nAmount: 150.00 GEL\nDue date: 2024-04-05\n\n" := by
  have h := (claim_C6 w6 ("93.177.1.1", "4153") ⟨200, body_with_token⟩ ⟨200, "searchjson"⟩
      "ABC123" result6 (by decide) rfl (by decide) (by decide) (by decide) rfl (by decide)
      rfl).2.1 ⟨2, [fine1, fine2]⟩ rfl rfl (by decide)
  rw [h]
  decide

/-- C9: token extraction is partial: on the bare body `csrf_token`, whose
only marker line has no `value=` delimiter, the split indexing raises
`IndexError`, which only the catch-all handler converts, so the user gets
the generic unexpected-error reply and not the ParseError reply. -/
theorem claim_C9 :
    extract_csrf_token "csrf_token" = .error .indexError ∧
      (check_fines w9).reply = "An unexpected error occurred: list index out of range" ∧
      (check_fines w9).reply ≠ parseErrorMsg := by
  refine ⟨by decide, by decide, by decide⟩

/-- C10: when the selector returns no proxy the handler replies with the
fixed no-proxy message and issues no portal request at all; conversely
any portal activity (the landing GET or the search POST) happens only
after a proxy has been selected and installed, never proxyless. -/
theorem claim_C10 (w : CheckWorld) :
    (get_working_proxy w.fetch (fun q => test_proxy (w.probeResp q)) MAX_RETRIES = none →
        check_fines w = ⟨noProxyMsg, false, none, none⟩) ∧
      ((check_fines w).landingRequested = true ∨ (check_fines w).posted.isSome →
        ∃ p, get_working_proxy w.fetch (fun q => test_proxy (w.probeResp q)) MAX_RETRIES = some p ∧
          (check_fines w).proxyConfigured = some p) := by
  cases hsel : get_working_proxy w.fetch (fun q => test_proxy (w.probeResp q)) MAX_RETRIES with
  | none =>
    refine ⟨fun _ => by simp [check_fines, hsel], ?_⟩
    intro h
    have hout : check_fines w = ⟨noProxyMsg, false, none, none⟩ := by simp [check_fines, hsel]
    rw [hout] at h
    simp at h
  | some p =>
    refine ⟨fun h => by simp at h, ?_⟩
    intro _
    exact ⟨p, rfl, by simp [check_fines, hsel]⟩

/-- C10 witness: in a world where the proxy-listing fetch fails, the
handler replies with the no-proxy message and issues no portal request. -/
theorem claim_C10_witness : check_fines wNone = ⟨noProxyMsg, false, none, none⟩ :=
  (claim_C10 wNone).1 (by decide)

/-- Packing a valid code point and reading it back is the identity. -/
theorem toNat_char_ofNat_valid (n : Nat) (h : n < 55296) : (Char.ofNat n).toNat = n := by
  have hv : n.isValidChar := Or.inl h
  unfold Char.ofNat
  rw [dif_pos hv]
  rfl

/-- Upper-casing a basic latin lower-case letter subtracts 32 from its
code point. -/
theorem char_toUpper_of_lower {c : Char} (h97 : 97 ≤ c.toNat) (h122 : c.toNat ≤ 122) :
    (Char.toUpper c).toNat = c.toNat - 32 := by
  simp only [Char.toUpper]
  rw [if_pos ⟨h97, h122⟩]
  exact toNat_char_ofNat_valid _ (by omega)

/-- Upper-casing any other character is the identity. -/
theorem char_toUpper_of_not_lower {c : Char} (h : ¬(97 ≤ c.toNat ∧ c.toNat ≤ 122)) :
    Char.toUpper c = c := by
  simp only [Char.toUpper]
  rw [if_neg h]

/-- Upper-casing is idempotent on characters. -/
theorem toUpper_toUpper (c : Char) : Char.toUpper (Char.toUpper c) = Char.toUpper c := by
  by_cases h : 97 ≤ c.toNat ∧ c.toNat ≤ 122
  · have h1 : (Char.toUpper c).toNat = c.toNat - 32 := char_toUpper_of_lower h.1 h.2
    apply char_toUpper_of_not_lower
    omega
  · rw [char_toUpper_of_not_lower h]
    exact char_toUpper_of_not_lower h

/-- Upper-casing does not change whether a character is stripped
whitespace. -/
theorem isPySpace_toUpper (c : Char) : isPySpace (Char.toUpper c) = isPySpace c := by
  by_cases h : 97 ≤ c.toNat ∧ c.toNat ≤ 122
  · have h1 : (Char.toUpper c).toNat = c.toNat - 32 := char_toUpper_of_lower h.1 h.2
    have hl : isPySpace (Char.toUpper c) = false := by
      simp only [isPySpace, h1]
      simp only [Bool.or_eq_false_iff, decide_eq_false_iff_not]
      omega
    have hr : isPySpace c = false := by
      simp only [isPySpace]
      simp only [Bool.or_eq_false_iff, decide_eq_false_iff_not]
      omega
    rw [hl, hr]
  · rw [char_toUpper_of_not_lower h]

/-- Stripping commutes with upper-casing the characters. -/
theorem strip_map_upper (l : List Char) :
    pyStripCh (l.map Char.toUpper) = (pyStripCh l).map Char.toUpper := by
  unfold pyStripCh
  have hcomp : (isPySpace ∘ Char.toUpper) = isPySpace := funext isPySpace_toUpper
  rw [List.dropWhile_map, hcomp, ← List.map_reverse, List.dropWhile_map, hcomp,
    ← List.map_reverse]

/-- Dropping leading whitespace leaves no leading whitespace. -/
theorem noLeadSpace_dropWhile (x : List Char) : noLeadSpace (x.dropWhile isPySpace) := by
  induction x with
  | nil => intro c hc; simp at hc
  | cons a t ih =>
    by_cases h : isPySpace a = true
    · simpa [List.dropWhile_cons, h] using ih
    · rw [Bool.not_eq_true] at h
      simp [List.dropWhile_cons, h, noLeadSpace]

/-- Dropping leading whitespace is the identity when there is none. -/
theorem dropWhile_of_noLead {x : List Char} (h : noLeadSpace x) :
    x.dropWhile isPySpace = x := by
  cases x with
  | nil => rfl
  | cons a t =>
    have ha : isPySpace a = false := h a (by simp)
    simp [List.dropWhile_cons, ha]

/-- Stripping trailing whitespace preserves the absence of leading
whitespace. -/
theorem noLeadSpace_backStrip {x : List Char} (h : noLeadSpace x) :
    noLeadSpace ((x.reverse.dropWhile isPySpace).reverse) := by
  have h0 : x.reverse.takeWhile isPySpace ++ x.reverse.dropWhile isPySpace = x.reverse :=
    List.takeWhile_append_dropWhile isPySpace x.reverse
  have hx : x = (x.reverse.dropWhile isPySpace).reverse ++
      (x.reverse.takeWhile isPySpace).reverse := by
    have h2 := congrArg List.reverse h0
    rw [List.reverse_append, List.reverse_reverse] at h2
    exact h2.symm
  cases hbs : (x.reverse.dropWhile isPySpace).reverse with
  | nil => intro c hc; simp at hc
  | cons c cs =>
    intro c2 hc2
    have hc2x : c2 = c := by
      have := hc2
      simp only [List.head?_cons, Option.mem_def, Option.some.injEq] at this
      exact this.symm
    subst hc2x
    rw [hbs] at hx
    have hhead : x.head? = some c2 := by rw [hx]; simp
    exact h c2 (by simp [hhead])

/-- Stripping is idempotent. -/
theorem pyStripCh_idem (l : List Char) : pyStripCh (pyStripCh l) = pyStripCh l := by
  unfold pyStripCh
  rw [dropWhile_of_noLead (noLeadSpace_backStrip (noLeadSpace_dropWhile l))]
  rw [List.reverse_reverse]
  rw [dropWhile_of_noLead (noLeadSpace_dropWhile _)]

/-- C8: the vehicle-number normalization is exactly strip-then-uppercase,
it is idempotent, and the normalized string is forwarded to the search
POST as the `protocolAuto` field for every input text, with no further
validation of the plate format (the POST is built whenever a token was
extracted, whatever the text was). -/
theorem claim_C8 :
    (∀ x : String, normalize_vehicle x =
        String.mk (List.map Char.toUpper (pyStripCh x.toList))) ∧
      (∀ x : String, normalize_vehicle (normalize_vehicle x) = normalize_vehicle x) ∧
      (∀ (w : CheckWorld) (p : ProxyAddr) (r0 : HttpResponse) (tok : String),
        get_working_proxy w.fetch (fun q => test_proxy (w.probeResp q)) MAX_RETRIES = some p →
        w.landing = .ok r0 → r0.status_code < 400 →
        extract_csrf_token r0.text = .ok (some tok) → tok ≠ "" →
        (check_fines w).posted = some ⟨"0", normalize_vehicle w.text, tok⟩) := by
  refine ⟨fun x => rfl, ?_, ?_⟩
  · intro x
    unfold normalize_vehicle
    have htl : (String.mk (List.map Char.toUpper (pyStripCh x.toList))).toList =
        List.map Char.toUpper (pyStripCh x.toList) := rfl
    rw [htl, strip_map_upper, pyStripCh_idem, List.map_map]
    have hcomp : Char.toUpper ∘ Char.toUpper = Char.toUpper := funext toUpper_toUpper
    rw [hcomp]
  · intro w p r0 tok hsel hland h0 htok hne
    have h0x : ¬(400 ≤ r0.status_code ∧ r0.status_code < 600) := by omega
    simp only [check_fines, hsel]
    have hrun : (run_lookup w (normalize_vehicle w.text)).2 =
        some ⟨"0", normalize_vehicle w.text, tok⟩ := by
      simp only [run_lookup, hland]
      rw [if_neg h0x]
      simp only [htok]
      rw [if_neg hne]
      cases hs : w.search ⟨"0", normalize_vehicle w.text, tok⟩ with
      | error d => simp
      | ok r1 =>
        by_cases h1 : 400 ≤ r1.status_code ∧ r1.status_code < 600
        · simp [h1]
        · cases hj : w.parse_json r1.text with
          | error d => simp [h1, hj]
          | ok result =>
            by_cases hsx : result.success = true
            · cases hd : result.data with
              | none => simp [h1, hj, hsx, hd]
              | some dta =>
                by_cases hc : 0 < dta.count
                · simp [h1, hj, hsx, hd, hc]
                · simp [h1, hj, hsx, hd, hc]
            · simp [h1, hj, hsx]
    exact hrun

/-- C8 witness: the concrete input with surrounding spaces and lower-case
letters is normalized and forwarded verbatim in the POST form. -/
theorem claim_C8_witness :
    normalize_vehicle " ab123cd " = "AB123CD" ∧
      (check_fines w5).posted = some ⟨"0", "AB123CD", "ABC123"⟩ := by
  refine ⟨by decide, ?_⟩
  have h := claim_C8.2.2 w5 ("93.177.1.1", "4153") ⟨200, body_with_token⟩ "ABC123"
    (by decide) rfl (by decide) (by decide) (by decide)
  rw [h]
  decide

end PenaltyCheck
